import Mathlib

/-!
# Verification of the performance-budgets budget evaluator

Shallow embedding of `src/lib/index.js` of BackToTheCode/performance-budgets.

The program compares a Lighthouse report against configured budgets:

* timing audits: for every audit in the report that carries a `numericValue`,
  it computes `overBudget = numericValue - speedBudgets[audit.id]` and records
  `overBudgetBy = overBudget > 0 ? overBudget : undefined` (mutating the audit
  record in place, together with `timeBudget = speedBudgets[audit.id]`);
* resource items: `data.audits["performance-budget"].details.items`, each with
  optional `sizeOverBudget` / `countOverBudget` fields precomputed upstream;
* validity: the run succeeds iff the count of "successful" timing audits equals
  the number of report audits and the count of "successful" resource items
  equals the number of items; otherwise diagnostics are rendered and the run
  rejects with "Budgets broken".

JavaScript conventions modelled here:

* an absent field / `undefined` value is `Option.none`;
* JS truthiness of a possibly-absent number: `undefined` is falsy, `0` is
  falsy, any other number is truthy;
* JS truthiness of a possibly-absent string: `undefined` and `""` are falsy;
* `a - b` where `b` is `undefined` yields `NaN`; `NaN > 0` is `false`.  A
  possibly-NaN number is modelled as `Option ℚ` with `none` for `NaN`;
* `Math.round x` is `⌊x + 1/2⌋` (round half toward +∞), exactly the
  ECMAScript definition on the exact values considered here;
* template interpolation of an integer is decimal `toString`; `chalk.green` /
  `chalk.red` are identity on the text content (colour codes are terminal
  decoration, not part of the diagnostic text).

Numbers are modelled as exact rationals: every comparison and subtraction the
claims mention is exact in the scenarios considered, and configured thresholds
are integer milliseconds, so the embedding is faithful on these inputs.
-/

/-- JS truthiness of a possibly-absent number (`undefined` and `0` are falsy). -/
def jsTruthyNum (o : Option ℚ) : Bool :=
  match o with
  | none => false
  | some x => x != 0

/-- JS truthiness of a possibly-absent string (`undefined` and `""` are falsy). -/
def jsTruthyStr (o : Option String) : Bool :=
  match o with
  | none => false
  | some s => s != ""

/-- `Math.round`: round half toward +∞, the ECMAScript rounding. -/
def jsRound (x : ℚ) : ℤ :=
  Int.floor (x + 1 / 2)

/-- One audit record of the report (`data.audits[key]`), with the two fields
the evaluator writes onto it (`timeBudget`, `overBudgetBy`) absent on input. -/
structure SpeedAudit where
  id : String
  numericValue : Option ℚ
  timeBudget : Option ℤ := none
  overBudgetBy : Option ℚ := none
deriving DecidableEq, Repr

/-- One entry of `data.audits["performance-budget"].details.items`. -/
structure ResourceItem where
  label : String
  requestCount : ℤ
  size : ℚ
  sizeOverBudget : Option ℚ := none
  countOverBudget : Option String := none
deriving DecidableEq, Repr

/-- The parts of the Lighthouse report (`data`) the program reads:
the audit records, the resource items of the `performance-budget` audit
(`details.items`, defaulting to `[]`), and
`data.configSettings.speedBudgets`, the configured timing thresholds in ms. -/
structure Report where
  audits : List SpeedAudit
  bundleItems : List ResourceItem
  speedBudgets : List (String × ℤ)
deriving DecidableEq, Repr

/-- `speedBudgets[id]`: JS property lookup, `undefined` (`none`) when the
identifier has no configured threshold. -/
def lookupBudget (budgets : List (String × ℤ)) (id : String) : Option ℤ :=
  match budgets with
  | [] => none
  | (k, v) :: rest => if k = id then some v else lookupBudget rest id

/-- The body of the `Object.keys(speedResults).forEach` loop:
if the audit has a `numericValue`, set
`timeBudget = speedBudgets[audit.id]` and
`overBudgetBy = (numericValue - speedBudgets[audit.id]) > 0 ? … : undefined`.
A missing threshold makes the subtraction `NaN` (`none`), and `NaN > 0` is
false, so `overBudgetBy` stays `undefined`. -/
def annotateAudit (budgets : List (String × ℤ)) (a : SpeedAudit) : SpeedAudit :=
  match a.numericValue with
  | none => a
  | some v =>
    let thr := lookupBudget budgets a.id
    let overBudget : Option ℚ := thr.map (fun (t : ℤ) => v - (t : ℚ))
    { a with
      timeBudget := thr
      overBudgetBy :=
        match overBudget with
        | some o => if 0 < o then some o else none
        | none => none }

/-- The whole `forEach` over `Object.keys(speedResults)`: every audit record of
the report is annotated in place. -/
def annotateSpeedResults (budgets : List (String × ℤ)) (rs : List SpeedAudit) :
    List SpeedAudit :=
  rs.map (annotateAudit budgets)

/-- `successfulSpeedAudits`: the report keys whose audit has a falsy
`overBudgetBy`. -/
def successfulSpeedAudits (rs : List SpeedAudit) : List SpeedAudit :=
  rs.filter (fun a => !(jsTruthyNum a.overBudgetBy))

/-- `failedSpeedAudits`: the report keys whose audit has a truthy
`overBudgetBy`. -/
def failedSpeedAudits (rs : List SpeedAudit) : List SpeedAudit :=
  rs.filter (fun a => jsTruthyNum a.overBudgetBy)

/-- Whether one report audit ends up classified OVER by the evaluator:
its annotated `overBudgetBy` is truthy. -/
def speedOver (budgets : List (String × ℤ)) (a : SpeedAudit) : Bool :=
  jsTruthyNum (annotateAudit budgets a).overBudgetBy

/-- `successfulBundleAudits`: items whose `sizeOverBudget` and
`countOverBudget` are both falsy (`!sizeOverBudget && !countOverBudget`). -/
def successfulBundleAudits (items : List ResourceItem) : List ResourceItem :=
  items.filter (fun i => !(jsTruthyNum i.sizeOverBudget) && !(jsTruthyStr i.countOverBudget))

/-- Whether one resource item is classified OVER for the validity count:
it is not in `successfulBundleAudits`. -/
def bundleOver (i : ResourceItem) : Bool :=
  jsTruthyNum i.sizeOverBudget || jsTruthyStr i.countOverBudget

/-- `failedRequestCountAudits`: items with `countOverBudget !== undefined`. -/
def failedRequestCountAudits (items : List ResourceItem) : List ResourceItem :=
  items.filter (fun i => i.countOverBudget.isSome)

/-- `failedBundleAudits`: items with `sizeOverBudget !== undefined`. -/
def failedBundleAudits (items : List ResourceItem) : List ResourceItem :=
  items.filter (fun i => i.sizeOverBudget.isSome)

/-- `isValid`, applied to the already-annotated audit records:
`successfulBundleAudits.length === items.length &&
 successfulSpeedAudits.length === Object.keys(speedResults).length`. -/
def isValid (rs : List SpeedAudit) (items : List ResourceItem) : Bool :=
  ((successfulBundleAudits items).length == items.length) &&
  ((successfulSpeedAudits rs).length == rs.length)

/-- Interpolation of a possibly-absent integer: `undefined` prints as
`"undefined"` in a JS template literal. -/
def optIntText (o : Option ℤ) : String :=
  match o with
  | none => "undefined"
  | some t => toString t

/-- One failed-timing diagnostic line:
`id: Expected less than timeBudget ms but got Math.round(numericValue) ms`.
An absent `numericValue` would print as `Math.round(undefined) = NaN`. -/
def renderSpeedLine (a : SpeedAudit) : String :=
  a.id ++ ": Expected less than " ++ optIntText a.timeBudget ++ " ms but got " ++
    (match a.numericValue with
     | some v => toString (jsRound v)
     | none => "NaN") ++ " ms"

/-- Decimal value of a digit-only string, the value `Number(s)` takes on the
numeric prefixes Lighthouse emits in `countOverBudget` descriptors
(`Number("") = 0` likewise agrees); `none` stands for `NaN`. -/
def parseDigits? (s : String) : Option ℕ :=
  if s.data.all Char.isDigit then
    some (s.data.foldl (fun n c => 10 * n + (c.toNat - 48)) 0)
  else none

/-- The characters before the first occurrence of `sep`, the whole input when
`sep` does not occur: the semantics of `s.split(sep)[0]` in JS for a nonempty
separator. -/
def takeBeforeSep (sep : List Char) : List Char → List Char
  | [] => []
  | c :: rest => if sep.isPrefixOf (c :: rest) then [] else c :: takeBeforeSep sep rest

/-- The separator `" requests"` of the count-over-budget descriptor. -/
def requestsSep : String := " requests"

/-- `countOverBudget.split(" requests")[0]`: the part of the descriptor before
the first occurrence of `" requests"`. -/
def countDescriptorHead (cob : String) : String :=
  String.mk (takeBeforeSep requestsSep.data cob.data)

/-- One failed-request-count diagnostic line:
`label: Expected (requestCount - Number(countOverBudget.split(" requests")[0]))
 total number of requests but got requestCount`.
The filter producing these items guarantees `countOverBudget` is present. -/
def renderCountLine (i : ResourceItem) : String :=
  match i.countOverBudget with
  | none => i.label ++ ": Expected NaN total number of requests but got " ++
      toString i.requestCount
  | some cob =>
    let expectedCount : String :=
      match parseDigits? (countDescriptorHead cob) with
      | some n => toString (i.requestCount - (n : ℤ))
      | none => "NaN"
    i.label ++ ": Expected " ++ expectedCount ++
      " total number of requests but got " ++ toString i.requestCount

/-- One failed-size diagnostic line:
`label: Expected Math.round((size - sizeOverBudget)/1024) + "kb" download size
 but got Math.round(size/1024) + "kb"`.
An absent `sizeOverBudget` would make the subtraction `NaN`. -/
def renderSizeLine (i : ResourceItem) : String :=
  (match i.sizeOverBudget with
   | some sob =>
     i.label ++ ": Expected " ++ (toString (jsRound ((i.size - sob) / 1024)) ++ "kb") ++
       " download size but got "
   | none => i.label ++ ": Expected NaNkb download size but got ") ++
  (toString (jsRound (i.size / 1024)) ++ "kb")

/-- The `if (!isValid)` branch: headings and per-failure lines, in the fixed
order speed, request count, size; a heading is printed only when its group is
nonempty. -/
def renderDiagnostics (rs : List SpeedAudit) (items : List ResourceItem) :
    List String :=
  (if (failedSpeedAudits rs).length ≠ 0 then
    "----- Failed page speed budget audits ------" ::
      (failedSpeedAudits rs).map renderSpeedLine
   else []) ++
  (if (failedRequestCountAudits items).length ≠ 0 then
    "----- Failed resource count budget audits ------" ::
      (failedRequestCountAudits items).map renderCountLine
   else []) ++
  (if (failedBundleAudits items).length ≠ 0 then
    "----- Failed resource size budget audits ------" ::
      (failedBundleAudits items).map renderSizeLine
   else [])

/-- The observable outcome of one `main()` invocation: which promise state it
settles in, and for a budget violation, the diagnostic lines it printed. -/
inductive RunOutcome where
  | usageError
  | acquisitionFailure
  | success
  | budgetsBroken (diagnostics : List String)
deriving DecidableEq, Repr

/-- `main()`: the URL check (`if (!url)` — absent or empty is falsy), the
await of the Lighthouse report (its failure is caught and surfaces as the
generic acquisition failure), annotation of the speed results, the validity
check, and either the success resolution or diagnostics plus the
`"Budgets broken"` rejection. -/
def runMain (url : Option String) (acquired : Option Report) : RunOutcome :=
  if !(jsTruthyStr url) then
    RunOutcome.usageError
  else
    match acquired with
    | none => RunOutcome.acquisitionFailure
    | some data =>
      let speedResults := annotateSpeedResults data.speedBudgets data.audits
      let items := data.bundleItems
      if isValid speedResults items then
        RunOutcome.success
      else
        RunOutcome.budgetsBroken (renderDiagnostics speedResults items)

/-- Events of the browser lifecycle inside `launchChromeAndRunLighthouse`. -/
inductive BrowserEvent where
  | launchChrome
  | runLighthouse
  | killChrome
deriving DecidableEq, Repr

/-- The promise chain of `launchChromeAndRunLighthouse`, as the sequence of
lifecycle events it performs, for a run in which the launch itself succeeds:
`chromeLauncher.launch(…).then(chrome => … lighthouse(…).then(results =>
chrome.kill().then(() => results.lhr)))`.
When `lighthouse` rejects, the inner `.then` callback never runs and no
handler in the chain catches the rejection, so the events stop there;
`Bool` reports whether the chain resolves with a report. -/
def launchChromeAndRunLighthouse (lighthouseResolves : Bool) :
    List BrowserEvent × Bool :=
  if lighthouseResolves then
    ([BrowserEvent.launchChrome, BrowserEvent.runLighthouse, BrowserEvent.killChrome], true)
  else
    ([BrowserEvent.launchChrome, BrowserEvent.runLighthouse], false)

/-! ## Helper lemmas -/

/-- Evaluation rule for `jsRound` at a known integer result. -/
theorem jsRound_eq (x : ℚ) (n : ℤ) (h1 : (n : ℚ) ≤ x + 1 / 2) (h2 : x + 1 / 2 < n + 1) :
    jsRound x = n := by
  unfold jsRound
  rw [Int.floor_eq_iff]
  exact ⟨h1, h2⟩

/-- The successful-items filter is the complement of `bundleOver`. -/
theorem successfulBundleAudits_eq (items : List ResourceItem) :
    successfulBundleAudits items = items.filter (fun i => !(bundleOver i)) := by
  unfold successfulBundleAudits bundleOver
  have h : (fun i : ResourceItem => !(jsTruthyNum i.sizeOverBudget) && !(jsTruthyStr i.countOverBudget)) =
      fun i : ResourceItem => !(jsTruthyNum i.sizeOverBudget || jsTruthyStr i.countOverBudget) := by
    funext i
    rw [Bool.not_or]
  rw [h]

/-- `annotateAudit` never changes the `id` or `numericValue` fields. -/
theorem annotateAudit_preserves (budgets : List (String × ℤ)) (a : SpeedAudit) :
    (annotateAudit budgets a).id = a.id ∧
    (annotateAudit budgets a).numericValue = a.numericValue := by
  rcases a with ⟨id, nv, tb, ob⟩
  cases nv <;> exact ⟨rfl, rfl⟩

/-! ## Claim C1 -/

/-- Claim C1: for every timing audit evaluated (identifier with a configured
threshold and a numeric measurement in the report), it is classified OVER iff
measured − threshold > 0 strictly; at measured − threshold = 0 it is WITHIN. -/
theorem timing_over_iff_strict (budgets : List (String × ℤ)) (a : SpeedAudit)
    (v : ℚ) (t : ℤ) (hv : a.numericValue = some v)
    (ht : lookupBudget budgets a.id = some t) :
    (speedOver budgets a = true ↔ v - (t : ℚ) > 0) ∧
    (v - (t : ℚ) = 0 → speedOver budgets a = false) := by
  have hrw : speedOver budgets a = jsTruthyNum (if 0 < v - (t : ℚ) then some (v - (t : ℚ)) else none) := by
    unfold speedOver annotateAudit
    rw [hv, ht]
    rfl
  by_cases h : 0 < v - (t : ℚ)
  · constructor
    · rw [hrw, if_pos h]
      simp only [jsTruthyNum, bne_iff_ne]
      exact ⟨fun _ => h, fun _ => h.ne'⟩
    · intro h0
      exact absurd h0 h.ne'
  · constructor
    · rw [hrw, if_neg h]
      simp only [jsTruthyNum]
      exact ⟨fun hc => absurd hc (Bool.false_ne_true), fun hc => absurd hc h⟩
    · intro _
      rw [hrw, if_neg h]
      rfl

/-- Concrete check of C1 at the boundary: threshold 2000 ms, measured 2001 ms
is OVER and measured 2000 ms is WITHIN. -/
theorem timing_over_iff_strict_witness :
    speedOver [("first-contentful-paint", 2000)]
        ⟨"first-contentful-paint", some 2001, none, none⟩ = true ∧
    speedOver [("first-contentful-paint", 2000)]
        ⟨"first-contentful-paint", some 2000, none, none⟩ = false := by
  constructor
  · exact (timing_over_iff_strict [("first-contentful-paint", 2000)]
      ⟨"first-contentful-paint", some 2001, none, none⟩ 2001 2000 rfl rfl).1.mpr (by norm_num)
  · exact (timing_over_iff_strict [("first-contentful-paint", 2000)]
      ⟨"first-contentful-paint", some 2000, none, none⟩ 2000 2000 rfl rfl).2 (by norm_num)

/-! ## Claim C10 -/

/-- Claim C10: an audit present in the report with a numeric measurement but
with no configured threshold is never recorded over budget: its annotated
overBudgetBy stays absent and it is classified WITHIN, so it cannot make the
run fail. -/
theorem unconfigured_audit_within (budgets : List (String × ℤ)) (a : SpeedAudit)
    (v : ℚ) (hv : a.numericValue = some v)
    (ht : lookupBudget budgets a.id = none) :
    (annotateAudit budgets a).overBudgetBy = none ∧ speedOver budgets a = false := by
  have hrw : (annotateAudit budgets a).overBudgetBy = none := by
    unfold annotateAudit
    rw [hv, ht]
    rfl
  refine ⟨hrw, ?_⟩
  unfold speedOver
  rw [hrw]
  rfl

/-- Concrete check of C10: a measured audit with no configured budget is
classified WITHIN. -/
theorem unconfigured_audit_within_witness :
    (annotateAudit [] ⟨"interactive", some 5000, none, none⟩).overBudgetBy = none ∧
    speedOver [] ⟨"interactive", some 5000, none, none⟩ = false :=
  unconfigured_audit_within [] _ 5000 rfl rfl

/-! ## Claim C3 -/

/-- Claim C3 counterexample: an item whose `sizeOverBudget` field is present
with value `0` is counted successful (WITHIN) by the code, because the filter
tests JS truthiness (`!sizeOverBudget`) and `0` is falsy — while the claim
says a present size-over-budget field classifies the item OVER. -/
theorem resource_zero_size_over_budget_within :
    bundleOver ⟨"fonts", 3, 100, some 0, none⟩ = false ∧
    (⟨"fonts", 3, 100, some 0, none⟩ : ResourceItem).sizeOverBudget.isSome = true ∧
    successfulBundleAudits [⟨"fonts", 3, 100, some 0, none⟩] =
      [⟨"fonts", 3, 100, some 0, none⟩] := by decide

/-- Claim C3 amended: a resource item is classified OVER iff its
`sizeOverBudget` is present with a non-zero value or its `countOverBudget` is
present with a non-empty value (JS truthiness); an item with both fields
absent is classified WITHIN. -/
theorem resource_over_iff_truthy_field (i : ResourceItem) :
    (bundleOver i = true ↔
      ((∃ x, i.sizeOverBudget = some x ∧ x ≠ 0) ∨
       (∃ s, i.countOverBudget = some s ∧ s ≠ ""))) ∧
    (i.sizeOverBudget = none → i.countOverBudget = none → bundleOver i = false) := by
  rcases i with ⟨label, rc, sz, sob, cob⟩
  rcases sob with _ | x <;> rcases cob with _ | s <;>
    simp [bundleOver, jsTruthyNum, jsTruthyStr]

/-- Concrete check of the amended C3: an item with both over-budget fields
absent is classified WITHIN. -/
theorem resource_over_iff_truthy_field_witness :
    bundleOver ⟨"fonts", 3, 100, none, none⟩ = false :=
  (resource_over_iff_truthy_field ⟨"fonts", 3, 100, none, none⟩).2 rfl rfl

/-! ## Claim C4 -/

/-- Claim C4 counterexample: an audit identifier that is configured and present
in the report but without a numeric measurement is NOT excluded from the
validity computation — it stays in the denominator (the report-key count) and
in the numerator (it is counted as successful), instead of being removed from
both as the claim states.  Here both counts are 1, where the claim demands 0
and 0. -/
theorem unmeasured_audit_still_counted :
    (annotateSpeedResults [("first-contentful-paint", 1000)]
        [⟨"first-contentful-paint", none, none, none⟩]).length = 1 ∧
    (successfulSpeedAudits (annotateSpeedResults [("first-contentful-paint", 1000)]
        [⟨"first-contentful-paint", none, none, none⟩])).length = 1 := by decide

/-- Claim C4 amended: a configured audit absent from the report never enters
the computation at all (the iteration is over report keys, so prepending a
configuration entry whose identifier matches no report audit changes nothing),
and an audit present without a numeric measurement is left unchanged by the
evaluation loop and classified WITHIN — counted in both the numerator and the
denominator, so it can never cause a failure. -/
theorem skipped_audits_never_fail :
    (∀ (budgets : List (String × ℤ)) (a : SpeedAudit), a.numericValue = none →
        a.overBudgetBy = none →
        annotateAudit budgets a = a ∧ speedOver budgets a = false) ∧
    (∀ (budgets : List (String × ℤ)) (id : String) (t : ℤ) (rs : List SpeedAudit),
        (∀ b ∈ rs, b.id ≠ id) →
        annotateSpeedResults ((id, t) :: budgets) rs = annotateSpeedResults budgets rs) := by
  constructor
  · intro budgets a hnv hob
    have h1 : annotateAudit budgets a = a := by
      unfold annotateAudit
      rw [hnv]
    refine ⟨h1, ?_⟩
    unfold speedOver
    rw [h1, hob]
    rfl
  · intro budgets id t rs hids
    unfold annotateSpeedResults
    apply List.map_congr_left
    intro b hb
    unfold annotateAudit
    have hlk : lookupBudget ((id, t) :: budgets) b.id = lookupBudget budgets b.id := by
      show (if id = b.id then some t else lookupBudget budgets b.id) =
        lookupBudget budgets b.id
      rw [if_neg (fun hc => hids b hb hc.symm)]
    rw [hlk]

/-- Concrete check of the amended C4: an unmeasured audit is untouched and
WITHIN, and a configuration entry for an identifier absent from the report
changes nothing. -/
theorem skipped_audits_never_fail_witness :
    (annotateAudit [("a", 5)] ⟨"a", none, none, none⟩ = ⟨"a", none, none, none⟩ ∧
     speedOver [("a", 5)] ⟨"a", none, none, none⟩ = false) ∧
    annotateSpeedResults [("b", 7)] [⟨"a", some 1, none, none⟩] =
      annotateSpeedResults [] [⟨"a", some 1, none, none⟩] :=
  ⟨skipped_audits_never_fail.1 [("a", 5)] ⟨"a", none, none, none⟩ rfl rfl,
   skipped_audits_never_fail.2 [] "b" 7 [⟨"a", some 1, none, none⟩] (by decide)⟩

/-! ## Claim C8 -/

/-- Claim C8 counterexample: the evaluation is not free of effects on its
inputs — the `forEach` loop writes `timeBudget` and `overBudgetBy` onto the
report's audit records, so the annotated report differs from the input
report. -/
theorem evaluation_mutates_report :
    annotateSpeedResults [("first-contentful-paint", 1000)]
        [⟨"first-contentful-paint", some 1500, none, none⟩] ≠
      [⟨"first-contentful-paint", some 1500, none, none⟩] := by
  intro h
  simp [annotateSpeedResults, annotateAudit, lookupBudget] at h

/-- Claim C8 amended: the evaluation result is a deterministic function of the
report and the configuration, and the annotation pass only adds the derived
`timeBudget` / `overBudgetBy` fields: every audit's identifier and measured
value are preserved, no audit is added or removed, and the resource items and
the configuration are never written at all — but the report's audit records
themselves are mutated in place, not left unchanged. -/
theorem evaluation_preserves_original_fields (budgets : List (String × ℤ))
    (rs : List SpeedAudit) :
    (annotateSpeedResults budgets rs).map (fun a => (a.id, a.numericValue)) =
      rs.map (fun a => (a.id, a.numericValue)) ∧
    (annotateSpeedResults budgets rs).length = rs.length := by
  constructor
  · unfold annotateSpeedResults
    rw [List.map_map]
    apply List.map_congr_left
    intro a _
    have h := annotateAudit_preserves budgets a
    simp only [Function.comp_apply, h.1, h.2]
  · unfold annotateSpeedResults
    exact List.length_map _ _

/-! ## Claim C9 -/

/-- Claim C9 is a code bug: the promise chain of
`launchChromeAndRunLighthouse` kills the browser only inside the callback that
runs when `lighthouse` resolves; when report retrieval fails the rejection
propagates with no catch or finally handler, so the launched browser process
is never killed on that path (the spec requires release on both paths). -/
theorem chrome_not_killed_on_lighthouse_failure :
    (BrowserEvent.launchChrome ∈ (launchChromeAndRunLighthouse false).1 ∧
     BrowserEvent.killChrome ∉ (launchChromeAndRunLighthouse false).1) ∧
    BrowserEvent.killChrome ∈ (launchChromeAndRunLighthouse true).1 := by decide

/-! ## Claim C2 -/

/-- Claim C2: given a non-empty URL and an acquired report, the run resolves
successfully iff the count of WITHIN timing audits equals the timing total and
the count of WITHIN resource items equals the resource total; otherwise it
rejects with the budget-violation outcome after rendering the diagnostics. -/
theorem run_success_iff_counts_match (u : String) (data : Report) (hu : u ≠ "") :
    (runMain (some u) (some data) = RunOutcome.success ↔
      ((successfulSpeedAudits (annotateSpeedResults data.speedBudgets data.audits)).length =
          (annotateSpeedResults data.speedBudgets data.audits).length ∧
        (successfulBundleAudits data.bundleItems).length = data.bundleItems.length)) ∧
    (runMain (some u) (some data) ≠ RunOutcome.success →
      runMain (some u) (some data) =
        RunOutcome.budgetsBroken
          (renderDiagnostics (annotateSpeedResults data.speedBudgets data.audits)
            data.bundleItems)) := by
  have htr : jsTruthyStr (some u) = true := by
    simp [jsTruthyStr, hu]
  have hrm : runMain (some u) (some data) =
      if isValid (annotateSpeedResults data.speedBudgets data.audits) data.bundleItems then
        RunOutcome.success
      else
        RunOutcome.budgetsBroken
          (renderDiagnostics (annotateSpeedResults data.speedBudgets data.audits)
            data.bundleItems) := by
    unfold runMain
    rw [htr]
    rfl
  have hvalid_iff : isValid (annotateSpeedResults data.speedBudgets data.audits)
      data.bundleItems = true ↔
      ((successfulSpeedAudits (annotateSpeedResults data.speedBudgets data.audits)).length =
          (annotateSpeedResults data.speedBudgets data.audits).length ∧
       (successfulBundleAudits data.bundleItems).length = data.bundleItems.length) := by
    unfold isValid
    rw [Bool.and_eq_true, beq_iff_eq, beq_iff_eq]
    exact and_comm
  by_cases hvalid : isValid (annotateSpeedResults data.speedBudgets data.audits)
      data.bundleItems = true
  · rw [hrm, if_pos hvalid]
    exact ⟨⟨fun _ => hvalid_iff.mp hvalid, fun _ => rfl⟩, fun hne => absurd rfl hne⟩
  · rw [hrm, if_neg hvalid]
    refine ⟨⟨fun hc => absurd hc (by simp), fun hc => absurd (hvalid_iff.mpr hc) hvalid⟩,
      fun _ => rfl⟩

/-- Concrete check of C2: with a non-empty URL and a report with no audits and
no resource items, the run succeeds. -/
theorem run_success_iff_counts_match_witness :
    runMain (some ("http://localhost:3000")) (some ⟨[], [], []⟩) = RunOutcome.success :=
  (run_success_iff_counts_match ("http://localhost:3000") ⟨[], [], []⟩
    (by decide)).1.mpr ⟨rfl, rfl⟩

/-! ## Claim C5 -/

/-- Claim C5 counterexample: for the scenario (threshold 1000 ms, measured
1500 ms) the code renders
`first-contentful-paint: Expected less than 1000 ms but got 1500 ms`,
not the claimed
`first-contentful-paint: Expected 1000 ms but got 1500 ms` —
the code inserts the words `less than` after `Expected`. -/
theorem speed_line_not_claimed_format :
    renderSpeedLine (annotateAudit [("first-contentful-paint", 1000)]
        ⟨"first-contentful-paint", some 1500, none, none⟩) =
      "first-contentful-paint: Expected less than 1000 ms but got 1500 ms" ∧
    renderSpeedLine (annotateAudit [("first-contentful-paint", 1000)]
        ⟨"first-contentful-paint", some 1500, none, none⟩) ≠
      "first-contentful-paint: Expected 1000 ms but got 1500 ms" := by
  have h1 : annotateAudit [("first-contentful-paint", 1000)]
      ⟨"first-contentful-paint", some 1500, none, none⟩ =
      ⟨"first-contentful-paint", some 1500, some 1000, some 500⟩ := by
    norm_num [annotateAudit, lookupBudget]
  have h2 : jsRound (1500 : ℚ) = 1500 := jsRound_eq _ 1500 (by norm_num) (by norm_num)
  have h3 : renderSpeedLine ⟨"first-contentful-paint", some 1500, some 1000, some 500⟩ =
      "first-contentful-paint: Expected less than 1000 ms but got 1500 ms" := by
    show ("first-contentful-paint" ++ ": Expected less than " ++ optIntText (some 1000) ++
        " ms but got " ++ toString (jsRound 1500) ++ " ms") =
      "first-contentful-paint: Expected less than 1000 ms but got 1500 ms"
    rw [h2]
    decide
  rw [h1, h3]
  exact ⟨rfl, by decide⟩

/-- Claim C5 amended: for every failed timing audit the rendered diagnostic
line is the identifier, the words `Expected less than`, the configured
threshold in ms, and the measured value rounded to the nearest integer in ms:
with threshold 1000 ms and measured 1500 ms the line reads
`first-contentful-paint: Expected less than 1000 ms but got 1500 ms`. -/
theorem speed_line_format_amended (budgets : List (String × ℤ)) (a : SpeedAudit)
    (v : ℚ) (t : ℤ) (hv : a.numericValue = some v)
    (ht : lookupBudget budgets a.id = some t) (hover : 0 < v - (t : ℚ)) :
    speedOver budgets a = true ∧
    renderSpeedLine (annotateAudit budgets a) =
      a.id ++ ": Expected less than " ++ toString t ++ " ms but got " ++
        toString (jsRound v) ++ " ms" := by
  have hta : (annotateAudit budgets a).timeBudget = some t := by
    unfold annotateAudit
    rw [hv, ht]
  have hna : (annotateAudit budgets a).numericValue = some v :=
    (annotateAudit_preserves budgets a).2.trans hv
  have hid : (annotateAudit budgets a).id = a.id :=
    (annotateAudit_preserves budgets a).1
  have hob : (annotateAudit budgets a).overBudgetBy = some (v - (t : ℚ)) := by
    unfold annotateAudit
    rw [hv, ht]
    show (if 0 < v - (t : ℚ) then some (v - (t : ℚ)) else none) = some (v - (t : ℚ))
    rw [if_pos hover]
  constructor
  · unfold speedOver
    rw [hob]
    show (v - (t : ℚ) != 0) = true
    rw [bne_iff_ne]
    exact hover.ne'
  · unfold renderSpeedLine
    rw [hta, hna, hid]
    rfl

/-- Concrete check of the amended C5 at the scenario input. -/
theorem speed_line_format_amended_witness :
    speedOver [("first-contentful-paint", 1000)]
        ⟨"first-contentful-paint", some 1500, none, none⟩ = true ∧
    renderSpeedLine (annotateAudit [("first-contentful-paint", 1000)]
        ⟨"first-contentful-paint", some 1500, none, none⟩) =
      "first-contentful-paint: Expected less than 1000 ms but got 1500 ms" := by
  have h := speed_line_format_amended [("first-contentful-paint", 1000)]
    ⟨"first-contentful-paint", some 1500, none, none⟩ 1500 1000 rfl rfl (by norm_num)
  refine ⟨h.1, h.2.trans ?_⟩
  rw [jsRound_eq 1500 1500 (by norm_num) (by norm_num)]
  decide

/-! ## Claim C6 -/

/-- Claim C6: for every resource item failing its size budget, the rendered
expected size is `Math.round((size - sizeOverBudget) / 1024)` kilobytes and
the rendered actual size is `Math.round(size / 1024)` kilobytes, where the
rounding is half-up (`⌊x + 1/2⌋`), used for display only. -/
theorem size_line_rounding (i : ResourceItem) (sob : ℚ)
    (h : i.sizeOverBudget = some sob) :
    renderSizeLine i =
      (i.label ++ ": Expected " ++ (toString (jsRound ((i.size - sob) / 1024)) ++ "kb") ++
        " download size but got ") ++ (toString (jsRound (i.size / 1024)) ++ "kb") ∧
    ∀ x : ℚ, jsRound x = Int.floor (x + 1 / 2) := by
  constructor
  · unfold renderSizeLine
    rw [h]
  · intro x
    rfl

/-- Concrete check of C6 at the scenario: observed size 300·1024 bytes with
51200 = 50·1024 bytes over budget renders expected 250kb and actual 300kb. -/
theorem size_line_rounding_witness :
    renderSizeLine ⟨"scripts", 10, 307200, some 51200, none⟩ =
      "scripts: Expected 250kb download size but got 300kb" := by
  have h := (size_line_rounding ⟨"scripts", 10, 307200, some 51200, none⟩ 51200 rfl).1
  rw [h]
  have e1 : jsRound (((307200 : ℚ) - 51200) / 1024) = 250 :=
    jsRound_eq _ 250 (by norm_num) (by norm_num)
  have e2 : jsRound ((307200 : ℚ) / 1024) = 300 :=
    jsRound_eq _ 300 (by norm_num) (by norm_num)
  show (("scripts" ++ ": Expected " ++ (toString (jsRound (((307200 : ℚ) - 51200) / 1024)) ++ "kb") ++
      " download size but got ") ++ (toString (jsRound ((307200 : ℚ) / 1024)) ++ "kb")) =
    "scripts: Expected 250kb download size but got 300kb"
  rw [e1, e2]
  decide

/-! ## Claim C7 -/

/-- Claim C7: for every resource item failing its request-count budget, the
rendered expected count is the observed request count minus the numeric prefix
parsed from the count-over-budget descriptor (the part before
`" requests"`). -/
theorem count_line_parsed_expected (i : ResourceItem) (cob : String) (n : ℕ)
    (hc : i.countOverBudget = some cob)
    (hn : parseDigits? (countDescriptorHead cob) = some n) :
    renderCountLine i =
      i.label ++ ": Expected " ++ toString (i.requestCount - (n : ℤ)) ++
        " total number of requests but got " ++ toString i.requestCount := by
  simp only [renderCountLine, hc, hn]

/-- Concrete check of C7 at the scenario: observed count 20 with descriptor
`"5 requests"` renders expected 15 and actual 20. -/
theorem count_line_parsed_expected_witness :
    renderCountLine ⟨"images", 20, 0, none, some ("5 requests")⟩ =
      "images: Expected 15 total number of requests but got 20" :=
  (count_line_parsed_expected ⟨"images", 20, 0, none, some ("5 requests")⟩
    ("5 requests") 5 rfl (by decide)).trans (by decide)
